import Mathlib

/-!
Verification development for the BeatBoard Spotify authentication service
(`src/services/spotifyAuth.ts`).

The service is embedded shallowly:
* browser `localStorage` / `sessionStorage` become association lists from
  `String` keys to stored values;
* `Date.now()` becomes an explicit `now : Nat` argument (epoch milliseconds);
* the token endpoint becomes an `Option TokenResponse` argument — `none`
  models a failed fetch or a non-2xx response, `some tr` a parsed 2xx body;
* `JSON.stringify` / `JSON.parse` round-tripping of the token record is
  modelled as exact by letting a storage slot hold either a raw string or a
  token record (`JSON.parse` of a non-record string fails and yields `null`
  through the `catch` branch, as in `getStoredTokens`);
* the PKCE verifier generator is embedded as a function of the 32 random
  bytes that `crypto.getRandomValues` produced, so theorems quantify over
  every possible output of the random source.
-/

namespace BeatBoard

/-- The persisted token record (`StoredTokens` in the source). -/
structure StoredTokens where
  accessToken : String
  refreshToken : Option String
  expiresAt : Nat
  scope : String
  deriving DecidableEq

/-- A token-endpoint response body (`TokenResponse` in the source). -/
structure TokenResponse where
  access_token : String
  token_type : String
  expires_in : Nat
  refresh_token : Option String
  scope : String
  deriving DecidableEq

/-- A value held in a browser storage slot: a raw string (the PKCE verifier
entries) or the JSON-serialised token record written by `storeTokens`. -/
inductive StorageValue where
  | str (s : String)
  | toks (t : StoredTokens)
  deriving DecidableEq

/-- JavaScript truthiness of a retrieved storage value: the empty string is
falsy; the JSON text of a token record is a non-empty string, hence truthy. -/
def StorageValue.jsTruthy : StorageValue → Bool
  | .str s => s != ""
  | .toks _ => true

/-- Truthiness of a `getItem` result (`null` is falsy). -/
def optTruthy : Option StorageValue → Bool
  | some v => v.jsTruthy
  | none => false

/-- A browser storage object, as an association list (at most one entry per
key is maintained by `Store.setItem`). -/
abbrev Store := List (String × StorageValue)

/-- `storage.getItem(k)`. -/
def Store.getItem (st : Store) (k : String) : Option StorageValue :=
  (st.find? (fun kv => kv.1 == k)).map (fun kv => kv.2)

/-- `storage.setItem(k, v)`: overwrite any entry for `k` (entry order is not
observed by the service, so re-insertion at the end is a faithful model). -/
def Store.setItem (st : Store) (k : String) (v : StorageValue) : Store :=
  st.filter (fun kv => kv.1 != k) ++ [(k, v)]

/-- `storage.removeItem(k)`. -/
def Store.removeItem (st : Store) (k : String) : Store :=
  st.filter (fun kv => kv.1 != k)

/-- `Object.keys(storage)`. -/
def Store.keys (st : Store) : List String :=
  st.map (fun kv => kv.1)

/-- The two browser storages the service touches. -/
structure AuthState where
  localStorage : Store
  sessionStorage : Store
  deriving DecidableEq

/-- A browser with empty storages. -/
def emptyState : AuthState := ⟨[], []⟩

/-- `STORAGE_KEY = "spotify_tokens"`. -/
def STORAGE_KEY : String := "spotify_tokens"

/-- The per-attempt correlation key `spotify_cv_${Date.now()}` built in
`initiateAuth` and echoed back through the `state` query parameter. -/
def verifierKey (now : Nat) : String := "spotify_cv_" ++ toString now

/-- `key.startsWith("spotify_cv_")`, the marker-recognition test used by
`logout`, expressed on the underlying character lists. -/
def isCvKey (k : String) : Bool := List.isPrefixOf "spotify_cv_".data k.data

/-- The pending-authorization markers live in a storage object: the keys
that `logout`'s cleanup loop would recognise. -/
def cvMarkers (st : Store) : List String := (Store.keys st).filter isCvKey

/-! ### PKCE verifier generation (`generateCodeVerifier`) -/

/-- The standard base64 alphabet used by `btoa`. -/
def BASE64_CHARS : List Char :=
  "ABCDEFGHIJKLMNOPQRSTUVWXYZabcdefghijklmnopqrstuvwxyz0123456789+/".data

/-- The URL-safe base64 alphabet that verifiers must lie in. -/
def URLSAFE_CHARS : List Char :=
  "ABCDEFGHIJKLMNOPQRSTUVWXYZabcdefghijklmnopqrstuvwxyz0123456789-_".data

/-- The base64 digit for a 6-bit group (out-of-range indices, which cannot
arise from bytes `< 256`, fall back to the padding character). -/
def b64char (n : Nat) : Char := BASE64_CHARS.getD n '='

/-- `btoa` on a byte sequence: standard base64 with `=` padding, three bytes
per four output digits. -/
def b64encode : List Nat → List Char
  | [] => []
  | [b0] => [b64char (b0 / 4), b64char (b0 % 4 * 16), '=', '=']
  | [b0, b1] => [b64char (b0 / 4), b64char (b0 % 4 * 16 + b1 / 16), b64char (b1 % 16 * 4), '=']
  | b0 :: b1 :: b2 :: rest =>
      b64char (b0 / 4) :: b64char (b0 % 4 * 16 + b1 / 16) ::
        b64char (b1 % 16 * 4 + b2 / 64) :: b64char (b2 % 64) :: b64encode rest

/-- The two character replacements `.replace(/\+/g, "-").replace(/\//g, "_")`. -/
def b64urlChar (c : Char) : Char :=
  if c = '+' then '-' else if c = '/' then '_' else c

/-- `generateCodeVerifier`, as a function of the 32 random bytes drawn from
`crypto.getRandomValues`: `btoa`, then `+`→`-`, `/`→`_`, and `=` stripped. -/
def generateCodeVerifier (bytes : List Nat) : List Char :=
  ((b64encode bytes).map b64urlChar).filter (fun c => c != '=')

/-- Membership in the URL-safe base64 alphabet. -/
def isUrlSafeChar (c : Char) : Bool := URLSAFE_CHARS.contains c

/-! ### Auth session operations -/

/-- `initiateAuth`: store the fresh verifier under the per-attempt key in
BOTH `localStorage` and `sessionStorage` (the source's "store code verifier
in multiple places for reliability"), then redirect the browser carrying the
key in the `state` parameter. -/
def initiateAuth (st : AuthState) (now : Nat) (verifier : String) : AuthState :=
  { localStorage := Store.setItem st.localStorage (verifierKey now) (.str verifier),
    sessionStorage := Store.setItem st.sessionStorage (verifierKey now) (.str verifier) }

/-- The verifier lookup inside `handleCallback`: `localStorage.getItem(state)`
first, then `sessionStorage.getItem(state)` as backup, `none` when neither
holds a truthy value. -/
def lookupVerifier (st : AuthState) (s : String) : Option StorageValue :=
  let lv := Store.getItem st.localStorage s
  let v := if optTruthy lv then lv else Store.getItem st.sessionStorage s
  if optTruthy v then v else none

/-- `storeTokens`: overwrite the single token slot with the freshly computed
record; `expiresAt = Date.now() + expires_in * 1000` (no safety buffer). -/
def storeTokens (st : AuthState) (now : Nat) (tr : TokenResponse) : AuthState :=
  let record : StoredTokens :=
    { accessToken := tr.access_token, refreshToken := tr.refresh_token,
      expiresAt := now + tr.expires_in * 1000, scope := tr.scope }
  { st with localStorage := Store.setItem st.localStorage STORAGE_KEY (.toks record) }

/-- The verifier cleanup in `handleCallback`: remove the `state` key from
both storages (runs on success and, when `state` is present, on failure). -/
def cleanupState (st : AuthState) (s : String) : AuthState :=
  { localStorage := Store.removeItem st.localStorage s,
    sessionStorage := Store.removeItem st.sessionStorage s }

/-- `handleCallback(code)`: read the `state` query parameter of the current
URL (`urlState`), look the verifier up by it, exchange the code (`resp` is
the token endpoint's answer), store the tokens and clean the marker up.
Every internal failure is caught and reduced to `false`; the `catch` block
re-reads `state` and removes the marker when `state` is present. -/
def handleCallback (st : AuthState) (urlState : Option String) (now : Nat)
    (resp : Option TokenResponse) : AuthState × Bool :=
  match urlState with
  | none => (st, false)
  | some s =>
      match lookupVerifier st s with
      | none => (cleanupState st s, false)
      | some _ =>
          match resp with
          | none => (cleanupState st s, false)
          | some tr => (cleanupState (storeTokens st now tr) s, true)

/-- `getStoredTokens`: parse the token slot; a slot holding anything but a
serialised record parses to `null` through the `catch` branch. -/
def getStoredTokens (st : AuthState) : Option StoredTokens :=
  match Store.getItem st.localStorage STORAGE_KEY with
  | some (.toks t) => some t
  | _ => none

/-- `isAuthenticated()`: a record exists and `expiresAt > Date.now()`. -/
def isAuthenticated (st : AuthState) (now : Nat) : Bool :=
  match getStoredTokens st with
  | some t => decide (t.expiresAt > now)
  | none => false

/-- JavaScript `a || b` on an optional string (empty string is falsy). -/
def jsOr (a : Option String) (b : String) : String :=
  match a with
  | some s => if s = "" then b else s
  | none => b

/-- `logout()`: remove the token slot from `localStorage`, then prune every
`spotify_cv_`-prefixed marker from both storages. -/
def logout (st : AuthState) : AuthState :=
  { localStorage :=
      (Store.removeItem st.localStorage STORAGE_KEY).filter (fun kv => !(isCvKey kv.1)),
    sessionStorage := st.sessionStorage.filter (fun kv => !(isCvKey kv.1)) }

/-- `refreshAccessToken(refreshToken)`: on a 2xx response store the new
record, keeping the old refresh token when the response carries none
(`tokens.refresh_token || refreshToken`); on any failure `logout()` and
return `null`. -/
def refreshAccessToken (st : AuthState) (now : Nat) (refreshToken : String)
    (resp : Option TokenResponse) : AuthState × Option String :=
  match resp with
  | none => (logout st, none)
  | some tr =>
      let tr' : TokenResponse :=
        { tr with refresh_token := some (jsOr tr.refresh_token refreshToken) }
      (storeTokens st now tr', some tr.access_token)

/-- `getAccessToken()`: return the unexpired token, refresh through a truthy
refresh token, and otherwise return `null` WITHOUT touching storage. -/
def getAccessToken (st : AuthState) (now : Nat) (resp : Option TokenResponse) :
    AuthState × Option String :=
  match getStoredTokens st with
  | none => (st, none)
  | some t =>
      if t.expiresAt > now then (st, some t.accessToken)
      else
        match t.refreshToken with
        | some r => if r = "" then (st, none) else refreshAccessToken st now r resp
        | none => (st, none)


/-! ### Concrete witness inputs -/

/-- A concrete successful token-endpoint response, used as witness input. -/
def exTok : TokenResponse :=
  { access_token := "AT1", token_type := "Bearer", expires_in := 3600,
    refresh_token := some "RT1", scope := "sc" }

/-- A state holding an expired token record with no refresh token. -/
def deadSt : AuthState :=
  storeTokens emptyState 0
    { access_token := "AT", token_type := "Bearer", expires_in := 1,
      refresh_token := none, scope := "sc" }

/-- A state holding an expired token record that still has a refresh token. -/
def staleSt : AuthState :=
  storeTokens emptyState 0
    { access_token := "AT0", token_type := "Bearer", expires_in := 1,
      refresh_token := some "RT0", scope := "sc" }

/-- A refresh response that carries no new refresh token. -/
def refreshNoRT : TokenResponse :=
  { access_token := "AT2", token_type := "Bearer", expires_in := 3600,
    refresh_token := none, scope := "sc" }


theorem find?_filter_ne (st : Store) (k k' : String) (h : k' ≠ k) :
    (st.filter (fun kv => kv.1 != k)).find? (fun kv => kv.1 == k')
      = st.find? (fun kv => kv.1 == k') := by
  induction st with
  | nil => rfl
  | cons hd tl ih =>
      rw [List.filter_cons]
      by_cases hh : hd.1 = k
      · have hbne : (hd.1 != k) = false := by simp [hh]
        have hne' : ¬ ((hd.1 == k') = true) := by
          simp only [beq_iff_eq, hh]
          exact Ne.symm h
        rw [hbne]
        simp only [Bool.false_eq_true, if_false]
        have hbeq : (hd.1 == k') = false := Bool.of_not_eq_true hne'
        rw [ih]
        simp only [List.find?_cons, hbeq]
      · have hbne : (hd.1 != k) = true := by simp [hh]
        rw [hbne]
        simp only [if_true]
        by_cases hk' : hd.1 = k'
        · have hbeq : (hd.1 == k') = true := by simp [hk']
          simp only [List.find?_cons, hbeq]
        · have hbeq : (hd.1 == k') = false := by simp [hk']
          simp only [List.find?_cons, hbeq]
          exact ih

theorem find?_filter_self (st : Store) (k : String) :
    (st.filter (fun kv => kv.1 != k)).find? (fun kv => kv.1 == k) = none := by
  apply List.find?_eq_none.mpr
  intro x hx
  have := List.of_mem_filter hx
  simp_all

theorem Store.getItem_setItem_self (st : Store) (k : String) (v : StorageValue) :
    Store.getItem (Store.setItem st k v) k = some v := by
  simp [Store.getItem, Store.setItem, List.find?_append, find?_filter_self, List.find?]

theorem Store.getItem_setItem_ne (st : Store) (k k' : String) (v : StorageValue)
    (h : k' ≠ k) : Store.getItem (Store.setItem st k v) k' = Store.getItem st k' := by
  have hlast : ([(k, v)] : Store).find? (fun kv => kv.1 == k') = none := by
    simp only [List.find?, beq_iff_eq]
    have : (k == k') = false := by
      simp only [beq_eq_false_iff_ne]
      exact Ne.symm h
    simp [this]
  simp [Store.getItem, Store.setItem, List.find?_append, hlast, find?_filter_ne st k k' h]

theorem Store.getItem_removeItem_self (st : Store) (k : String) :
    Store.getItem (Store.removeItem st k) k = none := by
  simp [Store.getItem, Store.removeItem, find?_filter_self]

theorem Store.getItem_removeItem_ne (st : Store) (k k' : String) (h : k' ≠ k) :
    Store.getItem (Store.removeItem st k) k' = Store.getItem st k' := by
  simp [Store.getItem, Store.removeItem, find?_filter_ne st k k' h]

theorem Store.getItem_filter_of_none (st : Store) (p : String × StorageValue → Bool)
    (k : String) (h : Store.getItem st k = none) :
    Store.getItem (st.filter p) k = none := by
  simp only [Store.getItem, Option.map_eq_none'] at h ⊢
  apply List.find?_eq_none.mpr
  intro x hx
  exact List.find?_eq_none.mp h x (List.mem_of_mem_filter hx)

theorem cvMarkers_filter_out (st : Store) :
    cvMarkers (st.filter (fun kv => !(isCvKey kv.1))) = [] := by
  induction st with
  | nil => rfl
  | cons hd tl ih =>
      rw [List.filter_cons]
      by_cases h : isCvKey hd.1
      · simp only [h, Bool.not_true, Bool.false_eq_true, if_false]
        exact ih
      · simp only [h, Bool.not_false, if_true]
        simp only [cvMarkers, Store.keys, List.map_cons, List.filter_cons, h,
          Bool.false_eq_true, if_false] at ih ⊢
        exact ih

theorem getStoredTokens_logout (st : AuthState) : getStoredTokens (logout st) = none := by
  have h2 := Store.getItem_filter_of_none (Store.removeItem st.localStorage STORAGE_KEY)
    (fun kv => !(isCvKey kv.1)) STORAGE_KEY (Store.getItem_removeItem_self _ _)
  simp [getStoredTokens, logout, h2]

theorem cvMarkers_logout_local (st : AuthState) : cvMarkers (logout st).localStorage = [] :=
  cvMarkers_filter_out _

theorem cvMarkers_logout_session (st : AuthState) : cvMarkers (logout st).sessionStorage = [] :=
  cvMarkers_filter_out _

theorem isPrefixOf_append_self (l t : List Char) : List.isPrefixOf l (l ++ t) = true := by
  induction l with
  | nil => simp [List.isPrefixOf]
  | cons a as ih => simp [List.isPrefixOf, ih]

theorem isCvKey_verifierKey (now : Nat) : isCvKey (verifierKey now) = true := by
  have hdata : (verifierKey now).data = "spotify_cv_".data ++ (toString now).data := by
    simp [verifierKey]
  simp [isCvKey, hdata, isPrefixOf_append_self]


theorem lookupVerifier_none_local (st : AuthState) (s : String)
    (h : lookupVerifier st s = none) :
    optTruthy (Store.getItem st.localStorage s) = false := by
  by_cases hl : optTruthy (Store.getItem st.localStorage s) = true
  · exfalso
    simp only [lookupVerifier, hl, if_true] at h
    rw [h] at hl
    simp [optTruthy] at hl
  · simp only [Bool.not_eq_true] at hl
    exact hl

theorem getStoredTokens_cleanup_of_lookup_none (st : AuthState) (s : String)
    (h : lookupVerifier st s = none) :
    getStoredTokens (cleanupState st s) = getStoredTokens st := by
  by_cases hs : STORAGE_KEY = s
  · subst hs
    have hl := lookupVerifier_none_local st _ h
    cases hv : Store.getItem st.localStorage STORAGE_KEY with
    | none => simp [getStoredTokens, cleanupState, Store.getItem_removeItem_self, hv]
    | some v =>
        cases v with
        | str s' =>
            simp [getStoredTokens, cleanupState, Store.getItem_removeItem_self, hv]
        | toks t =>
            rw [hv] at hl
            simp [optTruthy, StorageValue.jsTruthy] at hl
  · have hne := Store.getItem_removeItem_ne st.localStorage s STORAGE_KEY hs
    simp [getStoredTokens, cleanupState, hne]

theorem getStoredTokens_storeTokens (st : AuthState) (now : Nat) (tr : TokenResponse) :
    getStoredTokens (storeTokens st now tr) =
      some { accessToken := tr.access_token, refreshToken := tr.refresh_token,
             expiresAt := now + tr.expires_in * 1000, scope := tr.scope } := by
  simp [getStoredTokens, storeTokens, Store.getItem_setItem_self]

/-- Claim C10: when the callback URL carries no `state` query parameter,
`handleCallback` returns `false` and leaves the whole browser state — in
particular the stored-token slot — untouched, whatever the code argument,
the stored verifiers and the token endpoint would have answered. -/
theorem c10_missing_state_returns_false (st : AuthState) (now : Nat)
    (resp : Option TokenResponse) :
    handleCallback st none now resp = (st, false) := rfl

/-- Claim C6: a failed refresh (non-2xx or any internal failure, modelled by
`resp = none`) invokes `logout`, returns `null`, and afterwards no token
record and no pending marker remains in either storage. -/
theorem c6_refresh_failure_clears_session (st : AuthState) (now : Nat) (r : String) :
    refreshAccessToken st now r none = (logout st, none) ∧
    getStoredTokens (refreshAccessToken st now r none).1 = none ∧
    cvMarkers (refreshAccessToken st now r none).1.localStorage = [] ∧
    cvMarkers (refreshAccessToken st now r none).1.sessionStorage = [] :=
  ⟨rfl, getStoredTokens_logout st, cvMarkers_logout_local st, cvMarkers_logout_session st⟩

/-- Claim C5: a callback that finds no pending verifier under the state key
(or no state at all) returns `false` and leaves the stored-token slot
unchanged — the absence of a verifier never silently succeeds. -/
theorem c5_no_verifier_fails_closed (st : AuthState) (urlState : Option String)
    (now : Nat) (resp : Option TokenResponse)
    (h : ∀ s, urlState = some s → lookupVerifier st s = none) :
    (handleCallback st urlState now resp).2 = false ∧
    getStoredTokens (handleCallback st urlState now resp).1 = getStoredTokens st := by
  cases urlState with
  | none => exact ⟨rfl, rfl⟩
  | some s =>
      have hs := h s rfl
      refine ⟨?_, ?_⟩
      · simp [handleCallback, hs]
      · simp [handleCallback, hs, getStoredTokens_cleanup_of_lookup_none st s hs]

theorem c5_witness :
    (handleCallback emptyState (some "spotify_cv_0") 5 (some exTok)).2 = false ∧
    getStoredTokens (handleCallback emptyState (some "spotify_cv_0") 5 (some exTok)).1
      = getStoredTokens emptyState :=
  c5_no_verifier_fails_closed emptyState (some "spotify_cv_0") 5 (some exTok)
    (by intro s hs; cases hs; decide)

/-- Claim C7: `isAuthenticated` is true exactly when a token record exists
and its expiry lies strictly in the future; right after storing a response
with positive `expires_in` (the buffer is 0) it is true, and it is false
once the clock reaches `expiresAt`. -/
theorem c7_isAuthenticated_iff (st : AuthState) (now now' : Nat) (tr : TokenResponse)
    (hfresh : 0 < tr.expires_in) (hlate : now + tr.expires_in * 1000 ≤ now') :
    (isAuthenticated st now = true ↔
      ∃ t, getStoredTokens st = some t ∧ now < t.expiresAt) ∧
    isAuthenticated (storeTokens st now tr) now = true ∧
    isAuthenticated (storeTokens st now tr) now' = false := by
  refine ⟨?_, ?_, ?_⟩
  · cases hv : getStoredTokens st with
    | none => simp [isAuthenticated, hv]
    | some t => simp [isAuthenticated, hv]
  · simp only [isAuthenticated, getStoredTokens_storeTokens, gt_iff_lt, decide_eq_true_eq]
    omega
  · have hnot : ¬ (now + tr.expires_in * 1000 > now') := by omega
    simp [isAuthenticated, getStoredTokens_storeTokens, hnot]

theorem c7_witness : isAuthenticated (storeTokens emptyState 0 exTok) 0 = true :=
  (c7_isAuthenticated_iff emptyState 0 3600000 exTok (by decide) (by decide)).2.1

/-- Claim C4 counterexample: on an expired record with no refresh token,
`getAccessToken` returns `null` but does NOT remove the stored record — the
state is returned unchanged and the record is still present. -/
theorem c4_counterexample :
    (getAccessToken deadSt 2000 none).2 = none ∧
    (getAccessToken deadSt 2000 none).1 = deadSt ∧
    getStoredTokens deadSt ≠ none := ⟨by decide, by decide, by decide⟩

/-- Claim C4 as amended: on an expired record with no (truthy) refresh
token, `getAccessToken` returns `null` and leaves the browser state — hence
the stored record — exactly as it was (no clear-on-dead-end). -/
theorem c4_dead_end_leaves_record (st : AuthState) (now : Nat)
    (resp : Option TokenResponse) (t : StoredTokens)
    (h1 : getStoredTokens st = some t) (h2 : t.expiresAt ≤ now)
    (h3 : t.refreshToken = none ∨ t.refreshToken = some "") :
    getAccessToken st now resp = (st, none) := by
  have hexp : ¬ (t.expiresAt > now) := by omega
  rcases h3 with h3 | h3 <;> simp [getAccessToken, h1, hexp, h3]

theorem c4_witness : getAccessToken deadSt 2000 none = (deadSt, none) :=
  c4_dead_end_leaves_record deadSt 2000 none
    { accessToken := "AT", refreshToken := none, expiresAt := 1000, scope := "sc" }
    (by decide) (by decide) (Or.inl rfl)

/-- Claim C1 counterexample: one `initiateAuth` run persists the verifier in
TWO storage backends (localStorage and sessionStorage) under the same key,
and `handleCallback` silently succeeds through the sessionStorage fallback
when the localStorage copy is gone. -/
theorem c1_counterexample :
    Store.getItem (initiateAuth emptyState 0 "v").localStorage "spotify_cv_0"
      = some (.str "v") ∧
    Store.getItem (initiateAuth emptyState 0 "v").sessionStorage "spotify_cv_0"
      = some (.str "v") ∧
    (handleCallback ⟨[], [("spotify_cv_0", .str "v")]⟩ (some "spotify_cv_0") 9
      (some exTok)).2 = true := ⟨by decide, by decide, by decide⟩

/-- Claim C1 as amended: initiation and callback do share one deterministic
KEY scheme (`spotify_cv_<timestamp>`, round-tripped through `state`), but the
verifier is written to both localStorage and sessionStorage, and the callback
reads localStorage first and silently falls back to sessionStorage. -/
theorem c1_same_key_dual_backend (st : AuthState) (now : Nat) (v : String)
    (hv : v ≠ "") :
    Store.getItem (initiateAuth st now v).localStorage (verifierKey now)
      = some (.str v) ∧
    Store.getItem (initiateAuth st now v).sessionStorage (verifierKey now)
      = some (.str v) ∧
    lookupVerifier (initiateAuth st now v) (verifierKey now) = some (.str v) ∧
    (∀ st' : AuthState, Store.getItem st'.localStorage (verifierKey now) = none →
      Store.getItem st'.sessionStorage (verifierKey now) = some (.str v) →
      lookupVerifier st' (verifierKey now) = some (.str v)) := by
  have h1 := Store.getItem_setItem_self st.localStorage (verifierKey now) (.str v)
  have h2 := Store.getItem_setItem_self st.sessionStorage (verifierKey now) (.str v)
  refine ⟨h1, h2, ?_, ?_⟩
  · simp [lookupVerifier, initiateAuth, h1, optTruthy, StorageValue.jsTruthy, hv]
  · intro st' hl hs
    simp [lookupVerifier, hl, hs, optTruthy, StorageValue.jsTruthy, hv]

theorem c1_witness :
    Store.getItem (initiateAuth emptyState 5 "vv").localStorage (verifierKey 5)
      = some (.str "vv") :=
  (c1_same_key_dual_backend emptyState 5 "vv" (by decide)).1

/-- Claim C2 counterexample: two `initiateAuth` runs at distinct timestamps
leave TWO live pending markers in localStorage — the at-most-one invariant
fails on the code. -/
theorem c2_counterexample :
    (cvMarkers (initiateAuth (initiateAuth emptyState 0 "v1") 1 "v2").localStorage).length
      = 2 := by decide

/-- Claim C2 as amended: pending markers accumulate across repeated
initiations (initiateAuth adds its marker without clearing older ones), but
every marker key carries the recognizable `spotify_cv_` prefix and `logout`
prunes them all from both storages. -/
theorem c2_markers_accumulate_but_prunable (st : AuthState) (now : Nat) (v : String) :
    Store.getItem (initiateAuth st now v).localStorage (verifierKey now)
      = some (.str v) ∧
    isCvKey (verifierKey now) = true ∧
    cvMarkers (logout st).localStorage = [] ∧
    cvMarkers (logout st).sessionStorage = [] :=
  ⟨Store.getItem_setItem_self st.localStorage (verifierKey now) (.str v),
   isCvKey_verifierKey now, cvMarkers_logout_local st, cvMarkers_logout_session st⟩

/-- Claim C3: both persist sites — the authorization-code exchange inside
`handleCallback` and the refresh inside `refreshAccessToken` — store
`expiresAt = now + expires_in * 1000` with the same safety buffer, namely 0,
at both sites. -/
theorem c3_expiry_buffer_consistent (st : AuthState) (now : Nat) (tr : TokenResponse)
    (s : String) (r : String) (hs : lookupVerifier st s ≠ none)
    (hsk : s ≠ STORAGE_KEY) :
    getStoredTokens (handleCallback st (some s) now (some tr)).1 =
      some { accessToken := tr.access_token, refreshToken := tr.refresh_token,
             expiresAt := now + tr.expires_in * 1000, scope := tr.scope } ∧
    (getStoredTokens (refreshAccessToken st now r (some tr)).1).map
        (fun t => t.expiresAt) = some (now + tr.expires_in * 1000) := by
  constructor
  · obtain ⟨v, hv⟩ := Option.ne_none_iff_exists'.mp hs
    have hrm := Store.getItem_removeItem_ne
      (Store.setItem st.localStorage STORAGE_KEY
        (.toks { accessToken := tr.access_token, refreshToken := tr.refresh_token,
                 expiresAt := now + tr.expires_in * 1000, scope := tr.scope }))
      s STORAGE_KEY (Ne.symm hsk)
    simp [handleCallback, hv, getStoredTokens, cleanupState, storeTokens, hrm,
      Store.getItem_setItem_self]
  · simp [refreshAccessToken, getStoredTokens_storeTokens]

theorem c3_witness :
    getStoredTokens (handleCallback ⟨[("spotify_cv_7", .str "v")], []⟩
        (some "spotify_cv_7") 10 (some exTok)).1 =
      some { accessToken := "AT1", refreshToken := some "RT1",
             expiresAt := 10 + 3600 * 1000, scope := "sc" } :=
  (c3_expiry_buffer_consistent ⟨[("spotify_cv_7", .str "v")], []⟩ 10 exTok
    "spotify_cv_7" "RT0" (by decide) (by decide)).1

/-- Claim C8: when a successful refresh response omits `refresh_token`, the
newly stored record keeps the previously stored refresh token, and the new
access token is returned. -/
theorem c8_refresh_retains_refresh_token (st : AuthState) (now : Nat)
    (t : StoredTokens) (r : String) (tr : TokenResponse)
    (h1 : getStoredTokens st = some t) (h2 : t.expiresAt ≤ now)
    (h3 : t.refreshToken = some r) (hr : r ≠ "") (h4 : tr.refresh_token = none) :
    (getStoredTokens (getAccessToken st now (some tr)).1).map
        (fun u => u.refreshToken) = some (some r) ∧
    (getAccessToken st now (some tr)).2 = some tr.access_token := by
  have hexp : ¬ (t.expiresAt > now) := by omega
  have hred : getAccessToken st now (some tr) = refreshAccessToken st now r (some tr) := by
    simp [getAccessToken, h1, hexp, h3, hr]
  rw [hred]
  refine ⟨?_, ?_⟩
  · simp [refreshAccessToken, getStoredTokens_storeTokens, jsOr, h4]
  · simp [refreshAccessToken]

theorem c8_witness :
    (getStoredTokens (getAccessToken staleSt 2000 (some refreshNoRT)).1).map
        (fun u => u.refreshToken) = some (some "RT0") :=
  (c8_refresh_retains_refresh_token staleSt 2000
    { accessToken := "AT0", refreshToken := some "RT0", expiresAt := 1000, scope := "sc" }
    "RT0" refreshNoRT (by decide) (by decide) rfl (by decide) rfl).1


theorem b64char_mem (n : Nat) (h : n < 64) : b64char n ∈ BASE64_CHARS := by
  have hlen : BASE64_CHARS.length = 64 := by decide
  rw [b64char, List.getD_eq_getElem _ _ (by omega)]
  exact List.getElem_mem _

theorem b64url_of_b64_mem : ∀ c ∈ BASE64_CHARS, b64urlChar c ∈ URLSAFE_CHARS := by decide

theorem urlsafe_not_pad : ∀ c ∈ URLSAFE_CHARS, c ≠ '=' := by decide

theorem b64_keep (n : Nat) (h : n < 64) : (b64urlChar (b64char n) != '=') = true := by
  have hm := b64url_of_b64_mem _ (b64char_mem n h)
  have hne := urlsafe_not_pad _ hm
  simp [hne]

theorem b64_drop : (b64urlChar '=' != '=') = false := by decide

theorem generateCodeVerifier_length (bs : List Nat) (hb : ∀ b ∈ bs, b < 256) :
    (generateCodeVerifier bs).length = (4 * bs.length + 2) / 3 := by
  revert hb
  induction bs using b64encode.induct with
  | case1 =>
      intro hb
      rfl
  | case2 b0 =>
      intro hb
      have h0 : b0 < 256 := hb b0 (by simp)
      simp [generateCodeVerifier, b64encode, List.filter_cons,
        b64_keep (b0 / 4) (by omega), b64_keep (b0 % 4 * 16) (by omega), b64_drop]
  | case3 b0 b1 =>
      intro hb
      have h0 : b0 < 256 := hb b0 (by simp)
      have h1 : b1 < 256 := hb b1 (by simp)
      simp [generateCodeVerifier, b64encode, List.filter_cons,
        b64_keep (b0 / 4) (by omega), b64_keep (b0 % 4 * 16 + b1 / 16) (by omega),
        b64_keep (b1 % 16 * 4) (by omega), b64_drop]
  | case4 b0 b1 b2 rest ih =>
      intro hb
      have h0 : b0 < 256 := hb b0 (by simp)
      have h1 : b1 < 256 := hb b1 (by simp)
      have h2 : b2 < 256 := hb b2 (by simp)
      have hrest : ∀ b ∈ rest, b < 256 := fun b hbm => hb b (by simp [hbm])
      have ih' := ih hrest
      simp only [generateCodeVerifier, b64encode, List.map_cons, List.filter_cons,
        b64_keep (b0 / 4) (by omega), b64_keep (b0 % 4 * 16 + b1 / 16) (by omega),
        b64_keep (b1 % 16 * 4 + b2 / 64) (by omega), b64_keep (b2 % 64) (by omega),
        if_true, List.length_cons] at ih' ⊢
      rw [ih']
      omega


theorem b64encode_mem (bs : List Nat) (hb : ∀ b ∈ bs, b < 256) :
    ∀ c ∈ b64encode bs, c ∈ BASE64_CHARS ∨ c = '=' := by
  revert hb
  induction bs using b64encode.induct with
  | case1 =>
      intro hb c hc
      simp [b64encode] at hc
  | case2 b0 =>
      intro hb c hc
      have h0 : b0 < 256 := hb b0 (by simp)
      simp only [b64encode, List.mem_cons, List.not_mem_nil, or_false] at hc
      rcases hc with rfl | rfl | rfl | rfl
      · exact Or.inl (b64char_mem _ (by omega))
      · exact Or.inl (b64char_mem _ (by omega))
      · exact Or.inr rfl
      · exact Or.inr rfl
  | case3 b0 b1 =>
      intro hb c hc
      have h0 : b0 < 256 := hb b0 (by simp)
      have h1 : b1 < 256 := hb b1 (by simp)
      simp only [b64encode, List.mem_cons, List.not_mem_nil, or_false] at hc
      rcases hc with rfl | rfl | rfl | rfl
      · exact Or.inl (b64char_mem _ (by omega))
      · exact Or.inl (b64char_mem _ (by omega))
      · exact Or.inl (b64char_mem _ (by omega))
      · exact Or.inr rfl
  | case4 b0 b1 b2 rest ih =>
      intro hb c hc
      have h0 : b0 < 256 := hb b0 (by simp)
      have h1 : b1 < 256 := hb b1 (by simp)
      have h2 : b2 < 256 := hb b2 (by simp)
      have hrest : ∀ b ∈ rest, b < 256 := fun b hbm => hb b (by simp [hbm])
      simp only [b64encode, List.mem_cons] at hc
      rcases hc with rfl | rfl | rfl | rfl | hc
      · exact Or.inl (b64char_mem _ (by omega))
      · exact Or.inl (b64char_mem _ (by omega))
      · exact Or.inl (b64char_mem _ (by omega))
      · exact Or.inl (b64char_mem _ (by omega))
      · exact ih hrest c hc

theorem generateCodeVerifier_urlsafe (bs : List Nat) (hb : ∀ b ∈ bs, b < 256) :
    ∀ c ∈ generateCodeVerifier bs, isUrlSafeChar c = true ∧ c ≠ '=' := by
  intro c hc
  simp only [generateCodeVerifier, List.mem_filter] at hc
  obtain ⟨hcm, hne⟩ := hc
  obtain ⟨c0, hc0, rfl⟩ := List.mem_map.mp hcm
  rcases b64encode_mem bs hb c0 hc0 with h | h
  · have hu := b64url_of_b64_mem c0 h
    refine ⟨?_, urlsafe_not_pad _ hu⟩
    exact List.elem_eq_true_of_mem hu
  · rw [h] at hne
    simp [b64urlChar] at hne

/-- Claim C9: `generateCodeVerifier` base64url-encodes its 32 random bytes
with no padding, so every generated verifier has length 43 (within the PKCE
bound 43–128) and every character lies in the URL-safe base64 alphabet with
no `=` characters. -/
theorem c9_generateCodeVerifier_base64url (bytes : List Nat)
    (hlen : bytes.length = 32) (hb : ∀ b ∈ bytes, b < 256) :
    (generateCodeVerifier bytes).length = 43 ∧
    43 ≤ (generateCodeVerifier bytes).length ∧
    (generateCodeVerifier bytes).length ≤ 128 ∧
    ∀ c ∈ generateCodeVerifier bytes, isUrlSafeChar c = true ∧ c ≠ '=' := by
  have hl := generateCodeVerifier_length bytes hb
  rw [hlen] at hl
  exact ⟨by omega, by omega, by omega, generateCodeVerifier_urlsafe bytes hb⟩

theorem c9_witness : (generateCodeVerifier (List.replicate 32 0)).length = 43 :=
  (c9_generateCodeVerifier_base64url (List.replicate 32 0) (by decide) (by decide)).1

end BeatBoard
